import Mathlib

/-!
# libwdi `installer_library.c`: a shallow embedding

The definitions below follow `src/lib/installer_library.c` function by
function.  Calls into the operating system are recorded, in program order, in
a trace of `Call`s carried by the `World`; what the operating system answers
is an input of the model (an environment record or a list of read outcomes).
Diagnostics (`usbi_dbg`, `usbi_warn`, `usbi_err`) change no modelled state and
are left out.
-/

namespace Libwdi

/-! ## Handles and the call trace -/

/-- A Win32 `HANDLE` value: the two sentinels the source compares against,
or a live handle identified by a number. -/
inductive Handle where
  | INVALID_HANDLE_VALUE : Handle
  | NULL : Handle
  | live (id : Nat) : Handle
  deriving DecidableEq, Repr

/-- One call into the operating system, as issued by the source. -/
inductive Call where
  | CreateNamedPipe : Call
  | CreateEvent : Call
  | ShellExecuteEx (lpFile lpParameters lpDirectory : String) : Call
  | ReadFile (h : Handle) : Call
  | WriteFile (h : Handle) (data : List Nat) : Call
  | WaitForSingleObject (h : Handle) : Call
  | WaitForMultipleObjects (hs : List Handle) : Call
  | GetOverlappedResult (h : Handle) : Call
  | Sleep (ms : Nat) : Call
  | CloseHandle (h : Handle) : Call
  deriving DecidableEq, Repr

/-- The process-wide variables of the source (`pipe_handle`,
`req_device_id`) together with the trace of calls issued so far.
`req_device_id` is the memory the `char*` points at, byte by byte. -/
structure World where
  pipe_handle : Handle
  req_device_id : List Nat
  trace : List Call
  deriving DecidableEq, Repr

/-- Append one call to the trace. -/
def World.emit (w : World) (c : Call) : World :=
  { w with trace := w.trace ++ [c] }

/-! ## Constants and helpers declared in headers outside `src/` -/

/-- Modelled from the spec: the message tag `IC_GET_DEVICE_ID` of the missing
header `installer_library.h`; the wire protocol gives
"0 = request-device-id". -/
def IC_GET_DEVICE_ID : Nat := 0

/-- Modelled from the spec: the message tag `IC_PRINT_MESSAGE` of the missing
header `installer_library.h`; the wire protocol gives "1 = print-message". -/
def IC_PRINT_MESSAGE : Nat := 1

/-- Modelled from the spec: `safe_closehandle`, a handle-safety helper of a
missing header.  The spec's termination discipline has acquired handles
released and nothing else, so the helper calls `CloseHandle` on a live handle
and does nothing on a sentinel. -/
def safe_closehandle (w : World) (h : Handle) : World :=
  match h with
  | Handle.live id => w.emit (Call.CloseHandle (Handle.live id))
  | _ => w

/-- C `strlen`: the number of bytes before the first NUL. -/
def strlen : List Nat → Nat
  | [] => 0
  | b :: bs => if b = 0 then 0 else strlen bs + 1

/-! ## `process_message` (lines 321-346) -/

/-- Handle one message received from the elevated installer.  `buffer` is the
frame buffer, `size` the byte count of the read.  Returns the C return value
and the world after the call. -/
def process_message (w : World) (buffer : List Nat) (size : Nat) : Int × World :=
  if size ≤ 0 then (-1, w)
  else
    let tag := buffer.getD 0 0
    if tag = IC_GET_DEVICE_ID then
      (0, w.emit (Call.WriteFile w.pipe_handle
            (w.req_device_id.take (strlen w.req_device_id))))
    else if tag = IC_PRINT_MESSAGE then
      if size < 2 then (-1, w)
      else (0, w)
    else (-1, w)

/-! ## `run_installer` (lines 349-481) -/

/-- What `GetOverlappedResult` answers after the read-completion event fired. -/
inductive OverlappedOutcome where
  | ok (buffer : List Nat) (rd_count : Nat) : OverlappedOutcome
  | ERROR_BROKEN_PIPE : OverlappedOutcome
  | ERROR_MORE_DATA (buffer : List Nat) (rd_count : Nat) : OverlappedOutcome
  | other : OverlappedOutcome
  deriving DecidableEq, Repr

/-- What `WaitForMultipleObjects(2, handle, FALSE, INFINITE)` answers. -/
inductive WaitOutcome where
  | WAIT_OBJECT_0 (r : OverlappedOutcome) : WaitOutcome
  | WAIT_OBJECT_1 : WaitOutcome
  | other : WaitOutcome
  deriving DecidableEq, Repr

/-- What one `ReadFile` of the serving loop answers: a frame read
synchronously, or one of the `GetLastError` codes the source switches on. -/
inductive ReadOutcome where
  | ok (buffer : List Nat) (rd_count : Nat) : ReadOutcome
  | ERROR_BROKEN_PIPE : ReadOutcome
  | ERROR_PIPE_LISTENING : ReadOutcome
  | ERROR_IO_PENDING (wait : WaitOutcome) : ReadOutcome
  | other : ReadOutcome
  deriving DecidableEq, Repr

/-- The `while (1)` loop of lines 426-475, one `ReadOutcome` per iteration.
`handle0` and `handle1` are the local `handle[0]` and `handle[1]`.  The result
is `some r` when the loop leaves through `goto out` with that `r`, and `none`
when the listed outcomes are used up and the loop is still serving. -/
def serve (handle0 handle1 : Handle) : List ReadOutcome → World → Option Int × World
  | [], w => (none, w)
  | ev :: rest, w =>
    let w1 := w.emit (Call.ReadFile w.pipe_handle)
    match ev with
    | ReadOutcome.ok buffer rd_count =>
      serve handle0 handle1 rest (process_message w1 buffer rd_count).2
    | ReadOutcome.ERROR_BROKEN_PIPE =>
      (some 0, w1.emit (Call.WaitForSingleObject handle1))
    | ReadOutcome.ERROR_PIPE_LISTENING =>
      serve handle0 handle1 rest (w1.emit (Call.Sleep 100))
    | ReadOutcome.ERROR_IO_PENDING wait =>
      let w2 := w1.emit (Call.WaitForMultipleObjects [handle0, handle1])
      match wait with
      | WaitOutcome.WAIT_OBJECT_0 r =>
        let w3 := w2.emit (Call.GetOverlappedResult w2.pipe_handle)
        match r with
        | OverlappedOutcome.ok buffer rd_count =>
          serve handle0 handle1 rest (process_message w3 buffer rd_count).2
        | OverlappedOutcome.ERROR_BROKEN_PIPE =>
          (some 0, w3.emit (Call.WaitForSingleObject handle1))
        | OverlappedOutcome.ERROR_MORE_DATA buffer rd_count =>
          serve handle0 handle1 rest (process_message w3 buffer rd_count).2
        | OverlappedOutcome.other => serve handle0 handle1 rest w3
      | WaitOutcome.WAIT_OBJECT_1 => (some 0, w2)
      | WaitOutcome.other => serve handle0 handle1 rest w2
    | ReadOutcome.other => serve handle0 handle1 rest w1

/-- The answers of the operating system to one run of `run_installer`. -/
structure InstallerEnv where
  /-- `sizeof(uintptr_t) < 8` is false: the library itself is 64 bit. -/
  ptr64 : Bool
  /-- `none`: `GetProcAddress` found no `IsWow64Process`; `some b`: the value
  the call left in `is_x64`. -/
  isWow64Process : Option Bool
  /-- `none`: `CreateNamedPipe` returned `INVALID_HANDLE_VALUE`. -/
  createNamedPipe : Option Nat
  /-- `none`: `CreateEvent` returned `NULL`. -/
  createEvent : Option Nat
  /-- The `hProcess` member after `ShellExecuteEx`; `none` is `NULL`. -/
  hProcess : Option Nat
  /-- The outcomes of the successive `ReadFile` calls. -/
  reads : List ReadOutcome

/-- The label `out:` of lines 476-480. -/
def run_installer_out (handle0 handle1 : Handle) (r : Int) (w : World) : Int × World :=
  let w1 := safe_closehandle w handle0
  let w2 := safe_closehandle w1 handle1
  let w3 := safe_closehandle w2 w2.pipe_handle
  (r, w3)

/-- Run the elevated installer.  `some r` is the C return value; `none` means
the serving loop has not left after all of `env.reads`. -/
def run_installer (env : InstallerEnv) (w : World) (path : String)
    (device_id : List Nat) : Option Int × World :=
  let w0 : World := { w with req_device_id := device_id }
  let is_x64 : Bool :=
    if env.ptr64 then true
    else match env.isWow64Process with
      | some b => b
      | none => false
  let pipe : Handle := match env.createNamedPipe with
    | some id => Handle.live id
    | none => Handle.INVALID_HANDLE_VALUE
  let w1 : World := { w0.emit Call.CreateNamedPipe with pipe_handle := pipe }
  if pipe = Handle.INVALID_HANDLE_VALUE then
    let o := run_installer_out Handle.INVALID_HANDLE_VALUE Handle.INVALID_HANDLE_VALUE (-1) w1
    (some o.1, o.2)
  else
    let handle0 : Handle := match env.createEvent with
      | some id => Handle.live id
      | none => Handle.NULL
    let w2 := w1.emit Call.CreateEvent
    if handle0 = Handle.NULL then
      let o := run_installer_out handle0 Handle.INVALID_HANDLE_VALUE (-1) w2
      (some o.1, o.2)
    else
      let exename : String :=
        if is_x64 then path ++ "\\installer_x64.exe" else path ++ "\\installer_x86.exe"
      let w3 := w2.emit (Call.ShellExecuteEx exename "libusb-device.inf" path)
      match env.hProcess with
      | none =>
        let o := run_installer_out handle0 Handle.INVALID_HANDLE_VALUE (-1) w3
        (some o.1, o.2)
      | some id =>
        let handle1 := Handle.live id
        match serve handle0 handle1 env.reads w3 with
        | (none, w4) => (none, w4)
        | (some r, w4) =>
          let o := run_installer_out handle0 handle1 r w4
          (some o.1, o.2)

/-! ## `struct driver_info` and the scanner `list_driverless` (lines 105-230) -/

/-- The record `struct driver_info`, with the fields the source uses; the
linked list built through `next` is a Lean list.  A `char*` member is `none`
while it is the `NULL` that `calloc` left; a `char[]` member is its text. -/
structure driver_info where
  device_id : Option String
  desc : Option String
  vid : String
  pid : String
  mi : String
  deriving DecidableEq, Repr

/-- The record as `calloc(1, sizeof(struct driver_info))` returns it. -/
def driver_info.calloc : driver_info :=
  { device_id := none, desc := none, vid := "", pid := "", mi := "" }

/-- Modelled from the spec: `safe_strncmp`, a string helper of a missing
header.  The spec classifies tokens "by fixed case-insensitive-prefix match",
so the helper compares the first `count` characters of both strings without
regard to case; the result is 0 on a match and non-zero otherwise. -/
def safe_strncmp (str1 str2 : String) (count : Nat) : Int :=
  if (str1.toList.take count).map Char.toLower = (str2.toList.take count).map Char.toLower
  then 0 else 1

/-- Modelled from the spec: `safe_strcpy(dst, dst_max, src)`, a string-safety
helper of a missing header.  The spec populates the destination with the
source text; the copy is bounded by the destination size `dst_max`, which has
to hold the terminator too, so the destination receives the first
`dst_max - 1` characters of the source.  The result is the new destination. -/
def safe_strcpy (dst_max : Nat) (src : String) : String :=
  String.mk (src.toList.take (dst_max - 1))

/-- Modelled from the spec: `safe_strcat(dst, dst_max, src)`, a string-safety
helper of a missing header.  The spec's file layout joins the parts of a path
one after the other; the result is bounded by the destination size `dst_max`,
so the source is appended as far as `dst_max - 1` characters in all allow.
The result is the new destination. -/
def safe_strcat (dst : String) (dst_max : Nat) (src : String) : String :=
  dst ++ String.mk (src.toList.take (dst_max - dst.length - 1))

/-- The sizes `sizeof(drv_info->vid)`, `sizeof(drv_info->pid)` and
`sizeof(drv_info->mi)` of the three `char` arrays of `struct driver_info`,
whose declaration is in a missing header. -/
structure FieldSizes where
  vid : Nat
  pid : Nat
  mi : Nat

/-- Modelled from the spec: `wchar_to_utf8`, a conversion helper of a missing
header; the description is carried over as text. -/
def wchar_to_utf8 (desc : String) : Option String := some desc

/-- C `strtok`, one call: skip the leading delimiters, return `none` at the
end of the string, otherwise the token up to the next delimiter and the
position saved for the next call (past that delimiter). -/
def strtok (s : String) (delim : String) : Option (String × String) :=
  let isDelim : Char → Bool := fun c => delim.toList.contains c
  let start := s.toList.dropWhile isDelim
  if start = [] then none
  else
    some (String.mk (start.takeWhile (fun c => !isDelim c)),
          String.mk ((start.dropWhile (fun c => !isDelim c)).drop 1))

/-- The array of line 114 (`char *` array of the three token heads). -/
def pfx : List String := ["VID_", "PID_", "MI_"]

/-- The `switch (j)` of lines 209-222. -/
def store_token (sz : FieldSizes) (drv_info : driver_info) (j : Nat) (token : String) :
    driver_info :=
  match j with
  | 0 => { drv_info with vid := safe_strcpy sz.vid token }
  | 1 => { drv_info with pid := safe_strcpy sz.pid token }
  | 2 => { drv_info with mi := safe_strcpy sz.mi token }
  | _ => drv_info

/-- The `for (j = 0; j < 3; j++)` loop of lines 207-224 on one token. -/
def match_token (sz : FieldSizes) (drv_info : driver_info) (token : String) : driver_info :=
  (List.range 3).foldl
    (fun d j =>
      if safe_strncmp token (pfx.getD j "") (pfx.getD j "").length = 0
      then store_token sz d j token else d)
    drv_info

/-- The `while (token != NULL)` loop of lines 206-226.  `tok` is the result of
the latest `strtok` call.  Every token takes at least one character, so a
budget of one more than the length of the path is never used up. -/
def token_loop (sz : FieldSizes) :
    Nat → Option (String × String) → driver_info → driver_info
  | 0, _, drv_info => drv_info
  | _, none, drv_info => drv_info
  | budget + 1, some (token, rest), drv_info =>
    token_loop sz budget (strtok rest "\\#&") (match_token sz drv_info token)

/-- Lines 205-226: tokenize `path` and fill `vid`, `pid`, `mi`. -/
def scan_tokens (sz : FieldSizes) (drv_info : driver_info) (path : String) : driver_info :=
  token_loop sz (path.length + 1) (strtok path "\\#&") drv_info

/-- What the operating system answers about one enumerated device. -/
structure DeviceEntry where
  /-- `SetupDiGetDeviceRegistryProperty(SPDRP_DRIVER)` succeeded. -/
  driver : Bool
  /-- `calloc` returned memory. -/
  calloc_ok : Bool
  /-- `CM_Get_Device_IDA`: `some path` on `CR_SUCCESS`. -/
  device_id : Option String
  /-- `GetVersionEx`: `some dwBuildNumber` when the call returned non-zero. -/
  build_number : Option Nat
  /-- `SetupDiGetDeviceRegistryPropertyW(SPDRP_DEVICEDESC)`: the text on success. -/
  registry_desc : Option String
  /-- `SetupDiGetDeviceProperty` was located in Setupapi.dll. -/
  has_device_property : Bool
  /-- `SetupDiGetDeviceProperty(DEVPKEY_Device_BusReportedDeviceDesc)`: the
  text on success. -/
  bus_desc : Option String

/-- Lines 177-201: the wide-character description buffer after the lookup. -/
def device_desc (e : DeviceEntry) : String :=
  if (match e.build_number with
      | some n => decide (n < 7000)
      | none => false)
  then
    match e.registry_desc with
    | some d => d
    | none => ""
  else if !e.has_device_property then ""
  else
    match e.bus_desc with
    | some d => d
    | none => ""

/-- The `for (i = 0; ; i++)` loop of lines 133-227 over the devices that
`SetupDiEnumDeviceInfo` still delivers; `ret` is the list linked so far.  The
new record is linked into the list (lines 158-163) before its members are
filled in. -/
def list_driverless_loop (sz : FieldSizes) :
    List DeviceEntry → List driver_info → List driver_info
  | [], ret => ret
  | e :: es, ret =>
    if e.driver then list_driverless_loop sz es ret
    else if !e.calloc_ok then []
    else
      match e.device_id with
      | none => list_driverless_loop sz es (ret ++ [driver_info.calloc])
      | some path =>
        let drv_info : driver_info :=
          { driver_info.calloc with
            device_id := some path, desc := wchar_to_utf8 (device_desc e) }
        list_driverless_loop sz es (ret ++ [scan_tokens sz drv_info path])

/-- List all driverless USB devices.  `devices` is `none` when
`SetupDiGetClassDevs` returned `INVALID_HANDLE_VALUE`; the `NULL` list is the
empty list. -/
def list_driverless (sz : FieldSizes) (devices : Option (List DeviceEntry)) :
    List driver_info :=
  match devices with
  | none => []
  | some es => list_driverless_loop sz es []

/-! ## The package builder: `guid_to_string`, `extract_binaries`, `create_inf` -/

/-- A Win32 `GUID`. -/
structure GUID where
  Data1 : Nat
  Data2 : Nat
  Data3 : Nat
  Data4 : List Nat

/-- The `printf` conversion `%0<width>X`: upper-case hexadecimal, padded with
zeros on the left to at least `width` digits. -/
def fmtX (width n : Nat) : String :=
  let digits := (Nat.toDigits 16 n).map Char.toUpper
  String.mk (List.replicate (width - digits.length) '0' ++ digits)

/-- Convert a GUID to an hex GUID string (lines 71-80). -/
def guid_to_string (guid : GUID) : String :=
  let d := fun i => fmtX 2 (guid.Data4.getD i 0)
  "\x7b" ++ fmtX 8 (guid.Data1 % 2 ^ 32) ++ "-" ++ fmtX 4 guid.Data2 ++ "-" ++ fmtX 4 guid.Data3
    ++ "-" ++ d 0 ++ d 1 ++ "-" ++ d 2 ++ d 3 ++ d 4 ++ d 5 ++ d 6 ++ d 7 ++ "\x7d"

/-- One entry of the table `resource[]` of the generated header `resource.h`. -/
structure Resource where
  subdir : String
  name : String
  data : String

/-- What the builder takes from headers outside `src/`: the tables
`resource[]` (with `nb_resources` its length) and `inf[]`, and the size
`MAX_PATH_LENGTH` of the file name buffers.  The source indexes `inf` with
`type` unchecked, so the table is a function of the index. -/
structure Bundle where
  resource : List Resource
  inf : Int → String
  MAX_PATH_LENGTH : Nat

/-- What the file system and `CoCreateGuid` answer. -/
structure FsEnv where
  /-- `_access(path, 02) == 0`. -/
  access : String → Bool
  /-- `CreateDirectory(path, 0) != 0`. -/
  createDirectory : String → Bool
  /-- `fopen(path, mode) != NULL`. -/
  fopen : String → Bool
  /-- The identifier `CoCreateGuid` generates. -/
  guid : GUID

/-- One side effect of the builder, in program order. -/
inductive FsCall where
  | CreateDirectory (path : String) : FsCall
  | fopen (filename mode : String) : FsCall
  | fprintf (filename text : String) : FsCall
  | fwrite (filename data : String) : FsCall
  | fclose (filename : String) : FsCall
  | CoCreateGuid : FsCall
  | inf_index (type : Int) : FsCall
  deriving DecidableEq, Repr

/-- Modelled from the spec: the driver type `USE_WINUSB` of the missing header
`installer_library.h`, the first of the two enumerated driver types. -/
def USE_WINUSB : Int := 0

/-- Modelled from the spec: the driver type `USE_LIBUSB` of the missing header
`installer_library.h`, the second of the two enumerated driver types. -/
def USE_LIBUSB : Int := 1

/-- The descriptor file name, `#define INF_NAME`. -/
def INF_NAME : String := "libusb-device.inf"

/-- The condition of lines 244 and 284,
`(_access(path, 02) != 0) && (CreateDirectory(path, 0) == 0)`: `CreateDirectory`
is only called when `_access` fails.  Returns whether the condition holds. -/
def cannot_access (fs : FsEnv) (path : String) (t : List FsCall) : Bool × List FsCall :=
  if fs.access path then (false, t)
  else (!fs.createDirectory path, t ++ [FsCall.CreateDirectory path])

/-- The loop of `extract_binaries` (lines 239-260) over the remaining
resources. -/
def extract_loop (max_path : Nat) (fs : FsEnv) (path : String) :
    List Resource → List FsCall → Int × List FsCall
  | [], t => (0, t)
  | r :: rs, t =>
    let filename :=
      safe_strcat (safe_strcat (safe_strcpy max_path path) max_path "\\") max_path r.subdir
    let c := cannot_access fs filename t
    if c.1 then (-1, c.2)
    else
      let filename := safe_strcat (safe_strcat filename max_path "\\") max_path r.name
      let t1 := c.2 ++ [FsCall.fopen filename "wb"]
      if !fs.fopen filename then (-1, t1)
      else
        extract_loop max_path fs path rs
          (t1 ++ [FsCall.fwrite filename r.data, FsCall.fclose filename])

/-- Extract the embedded binary resources (lines 233-264). -/
def extract_binaries (b : Bundle) (fs : FsEnv) (path : String) (t : List FsCall) :
    Int × List FsCall :=
  extract_loop b.MAX_PATH_LENGTH fs path b.resource t

/-- Create an inf and extract coinstallers in the directory pointed by `path`
(lines 268-318).  `none` is a `NULL` argument.  A `NULL` description is
printed by `%s` as `(null)`. -/
def create_inf (b : Bundle) (fs : FsEnv) (drv_info : Option driver_info)
    (path : Option String) (type : Int) : Int × List FsCall :=
  match path, drv_info with
  | none, _ => (-1, [])
  | _, none => (-1, [])
  | some path, some d =>
    if type < USE_WINUSB ∧ type > USE_LIBUSB then (-1, [])
    else
      let c := cannot_access fs path []
      if c.1 then (-1, c.2)
      else
        let t1 := (extract_binaries b fs path c.2).2
        let filename :=
          safe_strcat (safe_strcat (safe_strcpy b.MAX_PATH_LENGTH path) b.MAX_PATH_LENGTH "\\")
            b.MAX_PATH_LENGTH INF_NAME
        let t2 := t1 ++ [FsCall.fopen filename "w"]
        if !fs.fopen filename then (-1, t2)
        else
          (0, t2 ++
            [FsCall.fprintf filename "; libusb_device.inf\n",
             FsCall.fprintf filename "; Copyright (c) 2010 libusb (GNU LGPL)\n",
             FsCall.fprintf filename "[Strings]\n",
             FsCall.fprintf filename ("DeviceName = \"" ++ d.desc.getD "(null)" ++ "\"\n"),
             FsCall.fprintf filename ("DeviceID = \"" ++ d.vid ++ "&" ++ d.pid),
             (if d.mi ≠ "" then FsCall.fprintf filename ("&" ++ d.mi ++ "\"\n")
              else FsCall.fprintf filename "\"\n"),
             FsCall.CoCreateGuid,
             FsCall.fprintf filename ("DeviceGUID = \"" ++ guid_to_string fs.guid ++ "\"\n"),
             FsCall.inf_index type,
             FsCall.fwrite filename (b.inf type),
             FsCall.fclose filename])

/-! ## Notions used to state the properties -/

/-- The handles closed by a trace, in the order of the `CloseHandle` calls. -/
def closes : List Call → List Handle
  | [] => []
  | Call.CloseHandle h :: t => h :: closes t
  | _ :: t => closes t

/-- The handles one run acquires, in the order of acquisition: the channel
endpoint, then the read-completion event, then the helper process handle.  A
later handle is only asked for once the earlier ones were obtained. -/
def acquired (env : InstallerEnv) : List Handle :=
  match env.createNamedPipe with
  | none => []
  | some p =>
    Handle.live p ::
      match env.createEvent with
      | none => []
      | some e =>
        Handle.live e ::
          match env.hProcess with
          | none => []
          | some q => [Handle.live q]

/-- Two worlds agree on the channel handle, the device id and the handles
closed so far. -/
def SameSession (w w' : World) : Prop :=
  w'.pipe_handle = w.pipe_handle ∧ w'.req_device_id = w.req_device_id ∧
    closes w'.trace = closes w.trace

/-- The writes of a trace, in order: the handle written to and the payload. -/
def writes : List Call → List (Handle × List Nat)
  | [] => []
  | Call.WriteFile h data :: t => (h, data) :: writes t
  | _ :: t => writes t

/-- The delimiter test of the scanner: one of the characters `\`, `#`, `&`. -/
def is_delim (c : Char) : Bool := "\\#&".toList.contains c

/-- The tokens of a path: the pieces between delimiters, empty pieces
included. -/
def tokens (path : String) : List String :=
  (path.toList.splitOnP is_delim).map String.mk

/-- Case-insensitive test that `p` is the head of `token`: with the case of
letters set aside, the characters of `p` start those of `token`. -/
def matches_nocase (p token : String) : Bool :=
  (p.toList.map Char.toLower).isPrefixOf (token.toList.map Char.toLower)

/-- What a `char` array of `size` bytes holds of a token: the whole token when
it is shorter than the array, its first `size - 1` characters otherwise. -/
def field_text (size : Nat) (token : String) : String :=
  String.mk (token.toList.take (size - 1))

/-- The texts of the `fprintf` calls of a trace, in order. -/
def fprintfs : List FsCall → List String
  | [] => []
  | FsCall.fprintf _ text :: t => text :: fprintfs t
  | _ :: t => fprintfs t

/-- The texts of a list written one after the other. -/
def join_texts : List String → String
  | [] => ""
  | a :: t => a ++ join_texts t

/-- The `DeviceID` line as the spec words it: `vendorId&productId`, followed
by `&interfaceIndex` only when the interface index is not empty. -/
def device_id_line (d : driver_info) : String :=
  if d.mi = "" then "DeviceID = \"" ++ d.vid ++ "&" ++ d.pid ++ "\"\n"
  else "DeviceID = \"" ++ d.vid ++ "&" ++ d.pid ++ "&" ++ d.mi ++ "\"\n"

/-! ## Concrete inputs -/

/-- An environment in which the channel, the event and the helper process are
all obtained and the first read finds the channel ended. -/
def env_all_acquired : InstallerEnv :=
  { ptr64 := true, isWow64Process := none, createNamedPipe := some 1,
    createEvent := some 2, hProcess := some 3, reads := [ReadOutcome.ERROR_BROKEN_PIPE] }

/-- An environment in which `CreateNamedPipe` fails. -/
def env_no_pipe : InstallerEnv :=
  { ptr64 := false, isWow64Process := some true, createNamedPipe := none,
    createEvent := some 2, hProcess := some 3, reads := [ReadOutcome.ok [0] 1] }

/-- Modelled from the spec: the sizes of the arrays `vid`, `pid` and `mi` of
`struct driver_info`, declared in a missing header.  The spec's data model has
the vendor and product ids as 4-hex-digit tokens, `VID_xxxx` and `PID_xxxx`,
and the interface index as `MI_xx`; the arrays hold such a token and its
terminator. -/
def spec_sizes : FieldSizes := { vid := 9, pid := 9, mi := 6 }

/-- A driverless device whose identity resolution answers `device_id`. -/
def driverless_device (device_id : Option String) : DeviceEntry :=
  { driver := false, calloc_ok := true, device_id := device_id, build_number := some 7600,
    registry_desc := none, has_device_property := true, bus_desc := some "Gadget" }

/-- A device record with vendor and product id and no interface index. -/
def sample_record : driver_info :=
  { device_id := some "USB\\VID_1234&PID_5678\\6&abc", desc := some "Gadget",
    vid := "VID_1234", pid := "PID_5678", mi := "" }

/-- A bundle with one resource and the same body for every driver type. -/
def sample_bundle : Bundle :=
  { resource := [{ subdir := "x86", name := "helper.dll", data := "MZ" }],
    inf := fun _ => "[Version]\n", MAX_PATH_LENGTH := 128 }

/-- A file system in which every directory is there and every file opens. -/
def fs_all_ok : FsEnv :=
  { access := fun _ => true, createDirectory := fun _ => true, fopen := fun _ => true,
    guid := { Data1 := 1, Data2 := 2, Data3 := 3, Data4 := [4, 5, 6, 7, 8, 9, 10, 11] } }

/-- A file system in which the package directory has to be created, the
resource subdirectory `C:\pkg\x86` can be neither reached nor created, and
every file opens. -/
def fs_no_subdir : FsEnv :=
  { access := fun _ => false, createDirectory := fun p => decide (p = "C:\\pkg"),
    fopen := fun _ => true,
    guid := { Data1 := 1, Data2 := 2, Data3 := 3, Data4 := [4, 5, 6, 7, 8, 9, 10, 11] } }

/-! ## Lemmas -/

theorem closes_append (a b : List Call) : closes (a ++ b) = closes a ++ closes b := by
  induction a with
  | nil => rfl
  | cons c t ih => cases c <;> simp [closes, ih]

theorem writes_append (a b : List Call) : writes (a ++ b) = writes a ++ writes b := by
  induction a with
  | nil => rfl
  | cons c t ih => cases c <;> simp [writes, ih]

theorem strlen_append_zero (s junk : List Nat) (hs : ∀ b ∈ s, b ≠ 0) :
    strlen (s ++ 0 :: junk) = s.length := by
  induction s with
  | nil => simp [strlen]
  | cons b t ih =>
    have hb : b ≠ 0 := hs b (List.mem_cons_self b t)
    have ht : ∀ c ∈ t, c ≠ 0 := fun c hc => hs c (List.mem_cons_of_mem b hc)
    simp [strlen, hb, ih ht]

theorem SameSession.trans {a b c : World} (h1 : SameSession a b) (h2 : SameSession b c) :
    SameSession a c :=
  ⟨h2.1.trans h1.1, h2.2.1.trans h1.2.1, h2.2.2.trans h1.2.2⟩

theorem sameSession_emit (w : World) (c : Call) (hc : closes [c] = []) :
    SameSession w (w.emit c) := by
  refine ⟨rfl, rfl, ?_⟩
  simp [World.emit, closes_append, hc]

theorem process_message_fields (w : World) (buffer : List Nat) (size : Nat) :
    SameSession w (process_message w buffer size).2 := by
  by_cases h0 : size ≤ 0
  · simp only [process_message, h0, if_true]
    exact ⟨rfl, rfl, rfl⟩
  · by_cases h1 : buffer.getD 0 0 = IC_GET_DEVICE_ID
    · simp only [process_message, h0, h1, if_true, if_false]
      exact sameSession_emit w _ rfl
    · by_cases h2 : buffer.getD 0 0 = IC_PRINT_MESSAGE
      · by_cases h3 : size < 2
        · simp only [process_message, h0, h1, h2, h3, if_true, if_false]
          exact ⟨rfl, rfl, rfl⟩
        · simp only [process_message, h0, h1, h2, h3, if_true, if_false]
          exact ⟨rfl, rfl, rfl⟩
      · simp only [process_message, h0, h1, h2, if_false]
        exact ⟨rfl, rfl, rfl⟩

theorem serve_fields (handle0 handle1 : Handle) (reads : List ReadOutcome) (w : World) :
    SameSession w (serve handle0 handle1 reads w).2 := by
  induction reads generalizing w with
  | nil => exact ⟨rfl, rfl, rfl⟩
  | cons ev rest ih =>
    have hr := sameSession_emit w (Call.ReadFile w.pipe_handle) rfl
    cases ev with
    | ok b n =>
      simp only [serve]
      exact (hr.trans (process_message_fields _ b n)).trans (ih _)
    | ERROR_BROKEN_PIPE =>
      simp only [serve]
      exact hr.trans (sameSession_emit _ (Call.WaitForSingleObject handle1) rfl)
    | ERROR_PIPE_LISTENING =>
      simp only [serve]
      exact (hr.trans (sameSession_emit _ (Call.Sleep 100) rfl)).trans (ih _)
    | ERROR_IO_PENDING wait =>
      have hw := hr.trans (sameSession_emit (w.emit (Call.ReadFile w.pipe_handle))
        (Call.WaitForMultipleObjects [handle0, handle1]) rfl)
      cases wait with
      | WAIT_OBJECT_0 r =>
        have hg := hw.trans (sameSession_emit
          ((w.emit (Call.ReadFile w.pipe_handle)).emit
            (Call.WaitForMultipleObjects [handle0, handle1]))
          (Call.GetOverlappedResult w.pipe_handle) rfl)
        cases r with
        | ok b n =>
          simp only [serve]
          exact (hg.trans (process_message_fields _ b n)).trans (ih _)
        | ERROR_BROKEN_PIPE =>
          simp only [serve]
          exact hg.trans (sameSession_emit _ (Call.WaitForSingleObject handle1) rfl)
        | ERROR_MORE_DATA b n =>
          simp only [serve]
          exact (hg.trans (process_message_fields _ b n)).trans (ih _)
        | other =>
          simp only [serve]
          exact hg.trans (ih _)
      | WAIT_OBJECT_1 =>
        simp only [serve]
        exact hw
      | other =>
        simp only [serve]
        exact hw.trans (ih _)
    | other =>
      simp only [serve]
      exact hr.trans (ih _)

theorem process_message_closed_form (w : World) (buffer : List Nat) (size : Nat) :
    process_message w buffer size =
      if size = 0 ∨ (buffer.getD 0 0 = IC_PRINT_MESSAGE ∧ size < 2) ∨
          (buffer.getD 0 0 ≠ IC_GET_DEVICE_ID ∧ buffer.getD 0 0 ≠ IC_PRINT_MESSAGE)
      then (-1, w)
      else if buffer.getD 0 0 = IC_GET_DEVICE_ID then
        (0, w.emit (Call.WriteFile w.pipe_handle
              (w.req_device_id.take (strlen w.req_device_id))))
      else (0, w) := by
  have htags : ¬ (IC_PRINT_MESSAGE = IC_GET_DEVICE_ID) := by decide
  by_cases h0 : size ≤ 0
  · have hz : size = 0 := Nat.le_zero.mp h0
    rw [if_pos (Or.inl hz)]
    simp only [process_message, h0, if_true]
  · have hs : size ≠ 0 := fun e => h0 (Nat.le_zero.mpr e)
    by_cases h1 : buffer.getD 0 0 = IC_GET_DEVICE_ID
    · have hc : ¬ (size = 0 ∨ (buffer.getD 0 0 = IC_PRINT_MESSAGE ∧ size < 2) ∨
          (buffer.getD 0 0 ≠ IC_GET_DEVICE_ID ∧ buffer.getD 0 0 ≠ IC_PRINT_MESSAGE)) := by
        rintro (e | ⟨e, _⟩ | ⟨e, _⟩)
        · exact hs e
        · exact htags (e.symm.trans h1)
        · exact e h1
      rw [if_neg hc, if_pos h1]
      simp only [process_message, h0, h1, if_true, if_false]
    · by_cases h2 : buffer.getD 0 0 = IC_PRINT_MESSAGE
      · by_cases h3 : size < 2
        · rw [if_pos (Or.inr (Or.inl ⟨h2, h3⟩))]
          simp only [process_message, h0, h1, h2, h3, htags, if_true, if_false]
        · have hc : ¬ (size = 0 ∨ (buffer.getD 0 0 = IC_PRINT_MESSAGE ∧ size < 2) ∨
              (buffer.getD 0 0 ≠ IC_GET_DEVICE_ID ∧
                buffer.getD 0 0 ≠ IC_PRINT_MESSAGE)) := by
            rintro (e | ⟨_, e⟩ | ⟨_, e⟩)
            · exact hs e
            · exact h3 e
            · exact e h2
          rw [if_neg hc, if_neg h1]
          simp only [process_message, h0, h1, h2, h3, htags, if_true, if_false]
      · rw [if_pos (Or.inr (Or.inr ⟨h1, h2⟩))]
        simp only [process_message, h0, h1, h2, if_false]

theorem process_message_failed_unchanged (w ws : World) (buffer : List Nat) (size : Nat)
    (hfail : (process_message w buffer size).1 = -1) :
    process_message ws buffer size = (-1, ws) := by
  rw [process_message_closed_form] at hfail ⊢
  by_cases hc : size = 0 ∨ (buffer.getD 0 0 = IC_PRINT_MESSAGE ∧ size < 2) ∨
      (buffer.getD 0 0 ≠ IC_GET_DEVICE_ID ∧ buffer.getD 0 0 ≠ IC_PRINT_MESSAGE)
  · rw [if_pos hc]
  · rw [if_neg hc] at hfail
    have hz : ¬ ((0 : Int) = -1) := by decide
    by_cases h1 : buffer.getD 0 0 = IC_GET_DEVICE_ID
    · rw [if_pos h1] at hfail
      exact absurd hfail hz
    · rw [if_neg h1] at hfail
      exact absurd hfail hz

theorem splitOnP_takeWhile {α : Type} (p : α → Bool) (l : List α) :
    l.splitOnP p = l.takeWhile (fun c => !p c) ::
      (match l.dropWhile (fun c => !p c) with
       | [] => []
       | _ :: r => r.splitOnP p) := by
  induction l with
  | nil => simp [List.splitOnP_nil]
  | cons x xs ih =>
    rw [List.splitOnP_cons]
    by_cases hx : p x = true
    · simp [hx, List.takeWhile, List.dropWhile]
    · simp only [hx, if_false]
      rw [ih]
      simp [hx, List.takeWhile, List.dropWhile]

theorem nonempty_tokens_dropWhile {α : Type} (p : α → Bool) (l : List α) :
    (l.splitOnP p).filter (fun t => !t.isEmpty) =
      ((l.dropWhile p).splitOnP p).filter (fun t => !t.isEmpty) := by
  induction l with
  | nil => simp
  | cons x xs ih =>
    by_cases hx : p x = true
    · rw [List.splitOnP_cons]
      simp [hx, List.dropWhile, ih]
    · simp [hx, List.dropWhile]

theorem safe_strncmp_eq_zero_iff (token p : String) :
    safe_strncmp token p p.length = 0 ↔ matches_nocase p token = true := by
  unfold safe_strncmp matches_nocase
  rw [List.isPrefixOf_iff_prefix, List.prefix_iff_eq_take]
  have hp : p.toList.take p.length = p.toList := List.take_length p.toList
  rw [hp, List.map_take, List.length_map]
  have hl : p.toList.length = p.length := rfl
  rw [hl]
  constructor
  · intro h
    by_contra hne
    rw [if_neg (fun e => hne e.symm)] at h
    exact absurd h (by decide)
  · intro h
    rw [if_pos h.symm]

theorem strtok_mk (l : List Char) :
    strtok (String.mk l) "\\#&" =
      if l.dropWhile is_delim = [] then none
      else some
        (String.mk ((l.dropWhile is_delim).takeWhile (fun c => !is_delim c)),
         String.mk (((l.dropWhile is_delim).dropWhile (fun c => !is_delim c)).drop 1)) :=
  rfl

theorem token_loop_eq_foldl (sz : FieldSizes) (budget : Nat) (l : List Char)
    (d : driver_info) (h : l.length < budget) :
    token_loop sz budget (strtok (String.mk l) "\\#&") d =
      (((l.splitOnP is_delim).filter (fun t => !t.isEmpty)).map String.mk).foldl
        (match_token sz) d := by
  induction budget generalizing l d with
  | zero => omega
  | succ n ih =>
    rw [nonempty_tokens_dropWhile, strtok_mk]
    have hlen : (l.dropWhile is_delim).length ≤ l.length :=
      (List.dropWhile_sublist is_delim).length_le
    cases hstart : l.dropWhile is_delim with
    | nil => simp [token_loop]
    | cons c cs =>
      rw [hstart] at hlen
      have hc : is_delim c = false := by
        have := List.head_dropWhile_not is_delim l (by rw [hstart]; simp)
        simpa [hstart] using this
      rw [if_neg (by simp)]
      simp only [token_loop]
      rw [splitOnP_takeWhile is_delim (c :: cs)]
      have htw : ((c :: cs).takeWhile (fun c => !is_delim c)).isEmpty = false := by
        simp [List.takeWhile, hc]
      have hrest : (((c :: cs).dropWhile (fun c => !is_delim c)).drop 1).length < n := by
        have h1 : ((c :: cs).dropWhile (fun c => !is_delim c)).length ≤ cs.length := by
          simp only [List.dropWhile, hc, Bool.not_false]
          exact (List.dropWhile_sublist _).length_le
        simp only [List.length_drop]
        simp only [List.length_cons] at hlen
        omega
      rw [ih _ _ hrest]
      cases hdw : (c :: cs).dropWhile (fun c => !is_delim c) with
      | nil => simp [List.filter, htw]
      | cons x r => simp [List.filter, htw]

theorem match_token_fields (sz : FieldSizes) (d : driver_info) (t : String) :
    (match_token sz d t).vid =
      (if matches_nocase "VID_" t then field_text sz.vid t else d.vid) ∧
    (match_token sz d t).pid =
      (if matches_nocase "PID_" t then field_text sz.pid t else d.pid) ∧
    (match_token sz d t).mi =
      (if matches_nocase "MI_" t then field_text sz.mi t else d.mi) ∧
    (match_token sz d t).device_id = d.device_id ∧
    (match_token sz d t).desc = d.desc := by
  have hv : safe_strncmp t "VID_" 4 = 0 ↔ matches_nocase "VID_" t = true :=
    safe_strncmp_eq_zero_iff t "VID_"
  have hp : safe_strncmp t "PID_" 4 = 0 ↔ matches_nocase "PID_" t = true :=
    safe_strncmp_eq_zero_iff t "PID_"
  have hm : safe_strncmp t "MI_" 3 = 0 ↔ matches_nocase "MI_" t = true :=
    safe_strncmp_eq_zero_iff t "MI_"
  have e : match_token sz d t =
      (fun d2 : driver_info =>
        if safe_strncmp t "MI_" 3 = 0 then { d2 with mi := field_text sz.mi t } else d2)
      ((fun d1 : driver_info =>
        if safe_strncmp t "PID_" 4 = 0 then { d1 with pid := field_text sz.pid t } else d1)
      (if safe_strncmp t "VID_" 4 = 0 then { d with vid := field_text sz.vid t } else d)) :=
    rfl
  rw [e]
  simp only [hv, hp, hm]
  by_cases cv : matches_nocase "VID_" t = true <;>
  by_cases cp : matches_nocase "PID_" t = true <;>
  by_cases cm : matches_nocase "MI_" t = true <;>
  simp [cv, cp, cm]

theorem getLast?_cons_map_getD {α β : Type} (f : α → β) (a : α) (l : List α) (x : β) :
    (((a :: l).getLast?).map f).getD x = ((l.getLast?).map f).getD (f a) := by
  cases l with
  | nil => rfl
  | cons b l =>
    rw [List.getLast?_cons_cons, List.getLast?_eq_getLast _ (List.cons_ne_nil b l)]
    rfl

theorem foldl_match_token_fields (sz : FieldSizes) (toks : List String) (d : driver_info) :
    (toks.foldl (match_token sz) d).vid =
        (((toks.filter (matches_nocase "VID_")).getLast?).map (field_text sz.vid)).getD d.vid ∧
    (toks.foldl (match_token sz) d).pid =
        (((toks.filter (matches_nocase "PID_")).getLast?).map (field_text sz.pid)).getD d.pid ∧
    (toks.foldl (match_token sz) d).mi =
        (((toks.filter (matches_nocase "MI_")).getLast?).map (field_text sz.mi)).getD d.mi ∧
    (toks.foldl (match_token sz) d).device_id = d.device_id ∧
    (toks.foldl (match_token sz) d).desc = d.desc := by
  induction toks generalizing d with
  | nil => exact ⟨rfl, rfl, rfl, rfl, rfl⟩
  | cons t ts ih =>
    obtain ⟨i1, i2, i3, i4, i5⟩ := ih (match_token sz d t)
    obtain ⟨m1, m2, m3, m4, m5⟩ := match_token_fields sz d t
    simp only [List.foldl_cons]
    refine ⟨?_, ?_, ?_, i4.trans m4, i5.trans m5⟩
    · rw [i1, m1]
      by_cases c : matches_nocase "VID_" t = true
      · simp only [List.filter_cons, c, if_true, getLast?_cons_map_getD]
      · simp [List.filter_cons, c]
    · rw [i2, m2]
      by_cases c : matches_nocase "PID_" t = true
      · simp only [List.filter_cons, c, if_true, getLast?_cons_map_getD]
      · simp [List.filter_cons, c]
    · rw [i3, m3]
      by_cases c : matches_nocase "MI_" t = true
      · simp only [List.filter_cons, c, if_true, getLast?_cons_map_getD]
      · simp [List.filter_cons, c]

theorem filter_nonempty_tokens (p : String) (hp : matches_nocase p "" = false)
    (ls : List (List Char)) :
    ((ls.filter (fun t => !t.isEmpty)).map String.mk).filter (matches_nocase p) =
      (ls.map String.mk).filter (matches_nocase p) := by
  induction ls with
  | nil => rfl
  | cons t ts ih =>
    cases t with
    | nil =>
      have h0 : matches_nocase p (String.mk []) = false := hp
      simp [List.filter_cons, h0, ih]
    | cons c cs =>
      simp only [List.filter_cons, List.isEmpty_cons, Bool.not_false, if_true, List.map_cons]
      rw [ih]

theorem scan_tokens_eq_foldl (sz : FieldSizes) (d : driver_info) (path : String) :
    scan_tokens sz d path =
      (((path.toList.splitOnP is_delim).filter (fun t => !t.isEmpty)).map String.mk).foldl
        (match_token sz) d :=
  token_loop_eq_foldl sz (path.length + 1) path.toList d (Nat.lt_succ_self _)

theorem scan_tokens_fields (sz : FieldSizes) (d : driver_info) (path : String) :
    (scan_tokens sz d path).vid =
        ((((tokens path).filter (matches_nocase "VID_")).getLast?).map
          (field_text sz.vid)).getD d.vid ∧
    (scan_tokens sz d path).pid =
        ((((tokens path).filter (matches_nocase "PID_")).getLast?).map
          (field_text sz.pid)).getD d.pid ∧
    (scan_tokens sz d path).mi =
        ((((tokens path).filter (matches_nocase "MI_")).getLast?).map
          (field_text sz.mi)).getD d.mi ∧
    (scan_tokens sz d path).device_id = d.device_id ∧
    (scan_tokens sz d path).desc = d.desc := by
  rw [scan_tokens_eq_foldl]
  have h := foldl_match_token_fields sz
    (((path.toList.splitOnP is_delim).filter (fun t => !t.isEmpty)).map String.mk) d
  rw [filter_nonempty_tokens "VID_" (by decide), filter_nonempty_tokens "PID_" (by decide),
    filter_nonempty_tokens "MI_" (by decide)] at h
  exact h

theorem fprintfs_append (a b : List FsCall) : fprintfs (a ++ b) = fprintfs a ++ fprintfs b := by
  induction a with
  | nil => rfl
  | cons c t ih => cases c <;> simp [fprintfs, ih]

theorem fprintfs_cannot_access (fs : FsEnv) (path : String) (t : List FsCall) :
    fprintfs (cannot_access fs path t).2 = fprintfs t := by
  unfold cannot_access
  by_cases h : fs.access path = true
  · simp [h]
  · simp [h, fprintfs_append, fprintfs]

theorem fprintfs_extract_loop (max_path : Nat) (fs : FsEnv) (path : String)
    (rs : List Resource) (t : List FsCall) :
    fprintfs (extract_loop max_path fs path rs t).2 = fprintfs t := by
  induction rs generalizing t with
  | nil => rfl
  | cons r rs ih =>
    simp only [extract_loop]
    split
    · exact fprintfs_cannot_access fs _ t
    · split
      · simp [fprintfs_append, fprintfs, fprintfs_cannot_access]
      · rw [ih]
        simp [fprintfs_append, fprintfs, fprintfs_cannot_access]

theorem create_inf_fprintfs (b : Bundle) (fs : FsEnv) (d : driver_info) (path : String)
    (type : Int) (t : List FsCall)
    (hret : create_inf b fs (some d) (some path) type = (0, t)) :
    fprintfs t =
      ["; libusb_device.inf\n", "; Copyright (c) 2010 libusb (GNU LGPL)\n", "[Strings]\n",
       "DeviceName = \"" ++ d.desc.getD "(null)" ++ "\"\n",
       "DeviceID = \"" ++ d.vid ++ "&" ++ d.pid,
       if d.mi ≠ "" then "&" ++ d.mi ++ "\"\n" else "\"\n",
       "DeviceGUID = \"" ++ guid_to_string fs.guid ++ "\"\n"] := by
  have hz : ¬ ((-1 : Int) = 0) := by decide
  unfold create_inf at hret
  simp only at hret
  split at hret
  · exact absurd (congrArg Prod.fst hret) hz
  · split at hret
    · exact absurd (congrArg Prod.fst hret) hz
    · split at hret
      · exact absurd (congrArg Prod.fst hret) hz
      · have ht := (congrArg Prod.snd hret).symm
        simp only at ht
        rw [ht]
        simp only [fprintfs_append, extract_binaries, fprintfs_extract_loop,
          fprintfs_cannot_access]
        by_cases hm : d.mi = "" <;> simp [fprintfs, hm]

/-! ## The message dispatcher -/

/-- C1: `process_message` returns -1 exactly when the size is 0, or byte 0 is
the print-message tag and the size is below 2, or byte 0 is neither of the two
tags; in every other case it returns 0; and whenever it returns -1 the world
is left as it was, so nothing was written to the channel. -/
theorem process_message_failure_iff (w : World) (buffer : List Nat) (size : Nat) :
    ((process_message w buffer size).1 = -1 ↔
      (size = 0 ∨ (buffer.getD 0 0 = IC_PRINT_MESSAGE ∧ size < 2) ∨
        (buffer.getD 0 0 ≠ IC_GET_DEVICE_ID ∧ buffer.getD 0 0 ≠ IC_PRINT_MESSAGE))) ∧
    ((process_message w buffer size).1 = -1 ∨ (process_message w buffer size).1 = 0) ∧
    ((process_message w buffer size).1 = -1 → (process_message w buffer size).2 = w) := by
  have hz : ¬ ((0 : Int) = -1) := by decide
  rw [process_message_closed_form]
  by_cases hc : size = 0 ∨ (buffer.getD 0 0 = IC_PRINT_MESSAGE ∧ size < 2) ∨
      (buffer.getD 0 0 ≠ IC_GET_DEVICE_ID ∧ buffer.getD 0 0 ≠ IC_PRINT_MESSAGE)
  · rw [if_pos hc]
    exact ⟨⟨fun _ => hc, fun _ => rfl⟩, Or.inl rfl, fun _ => rfl⟩
  · rw [if_neg hc]
    by_cases h1 : buffer.getD 0 0 = IC_GET_DEVICE_ID
    · rw [if_pos h1]
      exact ⟨⟨fun e => absurd e hz, fun e => absurd e hc⟩, Or.inr rfl, fun e => absurd e hz⟩
    · rw [if_neg h1]
      exact ⟨⟨fun e => absurd e hz, fun e => absurd e hc⟩, Or.inr rfl, fun _ => rfl⟩

/-- Witness for C1: a print-message frame of one byte fails and leaves the
world as it was. -/
theorem process_message_failure_iff_witness :
    (process_message ⟨Handle.live 1, [65, 0], []⟩ [1] 1).1 = -1 ∧
    (process_message ⟨Handle.live 1, [65, 0], []⟩ [1] 1).2 = ⟨Handle.live 1, [65, 0], []⟩ :=
  ⟨by decide,
   (process_message_failure_iff ⟨Handle.live 1, [65, 0], []⟩ [1] 1).2.2 (by decide)⟩

/-- C2: `run_installer` stores the device-id string it is given as the
session's device id, and with that string `s` (followed in memory by its NUL
terminator) stored, a frame of at least one byte whose tag is
request-device-id makes `process_message` return 0 after exactly one call, a
`WriteFile` on the session's channel handle whose payload is `s` itself, of
length `strlen`; a run of `run_installer` that obtains its three handles and
reads this frame writes `s`, once, to the channel it created. -/
theorem process_message_request_device_id (env : InstallerEnv) (w : World) (path : String)
    (s junk buffer : List Nat) (size : Nat)
    (hs : ∀ b ∈ s, b ≠ 0) (hsize : 1 ≤ size) (htag : buffer.getD 0 0 = IC_GET_DEVICE_ID) :
    (run_installer env w path (s ++ 0 :: junk)).2.req_device_id = s ++ 0 :: junk ∧
    (∀ ws : World, ws.req_device_id = s ++ 0 :: junk →
      process_message ws buffer size =
        (0, { ws with trace := ws.trace ++ [Call.WriteFile ws.pipe_handle s] })) ∧
    strlen (s ++ 0 :: junk) = s.length ∧
    (∀ p e q : Nat, env.createNamedPipe = some p → env.createEvent = some e →
      env.hProcess = some q → env.reads = [ReadOutcome.ok buffer size] →
      writes (run_installer env w path (s ++ 0 :: junk)).2.trace =
        writes w.trace ++ [(Handle.live p, s)]) := by
  have hlen := strlen_append_zero s junk hs
  have h0 : ¬ size ≤ 0 := by omega
  have hpm : ∀ ws : World, ws.req_device_id = s ++ 0 :: junk →
      process_message ws buffer size =
        (0, { ws with trace := ws.trace ++ [Call.WriteFile ws.pipe_handle s] }) := by
    intro ws hw
    simp only [process_message, h0, htag, if_true, if_false, World.emit, hw,
      hlen, List.take_left']
  refine ⟨?_, hpm, hlen, ?_⟩
  · unfold run_installer
    cases hp : env.createNamedPipe with
    | none => simp [run_installer_out, safe_closehandle, World.emit]
    | some p =>
      cases he : env.createEvent with
      | none => simp [run_installer_out, safe_closehandle, World.emit]
      | some e =>
        cases hq : env.hProcess with
        | none => simp [run_installer_out, safe_closehandle, World.emit]
        | some q =>
          simp only [reduceCtorEq, if_false]
          generalize hw3 : World.emit _ (Call.ShellExecuteEx _ _ _) = w3
          have hdev : w3.req_device_id = s ++ 0 :: junk := by
            rw [← hw3]; rfl
          have hf := (serve_fields (Handle.live e) (Handle.live q) env.reads w3).2.1
          rcases hserve : serve (Handle.live e) (Handle.live q) env.reads w3 with ⟨_ | r, w4⟩
          · rw [hserve] at hf
            simpa [hdev] using hf
          · rw [hserve] at hf
            simp only [run_installer_out, safe_closehandle]
            simp only [] at hf
            split <;> simp [World.emit, hf, hdev]
  · intro p e q hp he hq hr
    simp only [run_installer, hp, he, hq, hr, serve, reduceCtorEq, if_false]
    rw [hpm _ rfl]
    simp [World.emit, writes_append, writes]

/-- Witness for C2: the device id `USB` is written back as the three bytes
`85, 83, 66`. -/
theorem process_message_request_device_id_witness :
    process_message ⟨Handle.live 1, [85, 83, 66, 0], []⟩ [0] 1 =
      (0, ⟨Handle.live 1, [85, 83, 66, 0],
        [Call.WriteFile (Handle.live 1) [85, 83, 66]]⟩) :=
  (process_message_request_device_id env_all_acquired
    ⟨Handle.INVALID_HANDLE_VALUE, [], []⟩ "C:\\pkg" [85, 83, 66] [] [0] 1
    (by decide) (by decide) (by decide)).2.1 ⟨Handle.live 1, [85, 83, 66, 0], []⟩ rfl

/-! ## The serving loop -/

/-- C3: in the serving loop a frame whose dispatch fails, read synchronously
or through the overlapped completion, does not end the loop: the loop goes on
with the next read in a world that differs only by the calls of the read
itself, with the same channel handle and device id and nothing written; a
request-device-id frame that follows is answered with the device-id string;
and a print-message frame of one byte is such a failing frame. -/
theorem serve_continues_after_failed_dispatch (handle0 handle1 : Handle) (w : World)
    (buffer : List Nat) (size : Nat) (rest : List ReadOutcome)
    (hfail : (process_message w buffer size).1 = -1) :
    (∀ b : List Nat, b.getD 0 0 = IC_PRINT_MESSAGE → ∀ ws : World,
        (process_message ws b 1).1 = -1) ∧
    serve handle0 handle1 (ReadOutcome.ok buffer size :: rest) w =
      serve handle0 handle1 rest
        { w with trace := w.trace ++ [Call.ReadFile w.pipe_handle] } ∧
    serve handle0 handle1
        (ReadOutcome.ERROR_IO_PENDING
          (WaitOutcome.WAIT_OBJECT_0 (OverlappedOutcome.ok buffer size)) :: rest) w =
      serve handle0 handle1 rest
        { w with trace := w.trace ++ [Call.ReadFile w.pipe_handle,
            Call.WaitForMultipleObjects [handle0, handle1],
            Call.GetOverlappedResult w.pipe_handle] } ∧
    serve handle0 handle1
        (ReadOutcome.ERROR_IO_PENDING
          (WaitOutcome.WAIT_OBJECT_0 (OverlappedOutcome.ERROR_MORE_DATA buffer size)) :: rest) w =
      serve handle0 handle1 rest
        { w with trace := w.trace ++ [Call.ReadFile w.pipe_handle,
            Call.WaitForMultipleObjects [handle0, handle1],
            Call.GetOverlappedResult w.pipe_handle] } ∧
    (serve handle0 handle1 [ReadOutcome.ok buffer size] w).1 = none ∧
    (serve handle0 handle1
        [ReadOutcome.ERROR_IO_PENDING
          (WaitOutcome.WAIT_OBJECT_0 (OverlappedOutcome.ok buffer size))] w).1 = none ∧
    (∀ (buffer2 : List Nat) (size2 : Nat), 1 ≤ size2 →
        buffer2.getD 0 0 = IC_GET_DEVICE_ID →
      serve handle0 handle1
          (ReadOutcome.ok buffer size :: ReadOutcome.ok buffer2 size2 :: rest) w =
        serve handle0 handle1 rest
          { w with trace := w.trace ++ [Call.ReadFile w.pipe_handle,
              Call.ReadFile w.pipe_handle,
              Call.WriteFile w.pipe_handle
                (w.req_device_id.take (strlen w.req_device_id))] } ∧
      serve handle0 handle1
          (ReadOutcome.ERROR_IO_PENDING
            (WaitOutcome.WAIT_OBJECT_0 (OverlappedOutcome.ok buffer size)) ::
            ReadOutcome.ok buffer2 size2 :: rest) w =
        serve handle0 handle1 rest
          { w with trace := w.trace ++ [Call.ReadFile w.pipe_handle,
              Call.WaitForMultipleObjects [handle0, handle1],
              Call.GetOverlappedResult w.pipe_handle,
              Call.ReadFile w.pipe_handle,
              Call.WriteFile w.pipe_handle
                (w.req_device_id.take (strlen w.req_device_id))] }) := by
  have hsame : ∀ ws : World, (process_message ws buffer size).2 = ws := fun ws => by
    rw [process_message_failed_unchanged w ws buffer size hfail]
  have hsync : ∀ (l : List ReadOutcome) (ws : World),
      serve handle0 handle1 (ReadOutcome.ok buffer size :: l) ws =
        serve handle0 handle1 l
          { ws with trace := ws.trace ++ [Call.ReadFile ws.pipe_handle] } := by
    intro l ws
    simp only [serve, hsame]
    rfl
  have hover : ∀ (l : List ReadOutcome) (ws : World),
      serve handle0 handle1
          (ReadOutcome.ERROR_IO_PENDING
            (WaitOutcome.WAIT_OBJECT_0 (OverlappedOutcome.ok buffer size)) :: l) ws =
        serve handle0 handle1 l
          { ws with trace := ws.trace ++ [Call.ReadFile ws.pipe_handle,
              Call.WaitForMultipleObjects [handle0, handle1],
              Call.GetOverlappedResult ws.pipe_handle] } := by
    intro l ws
    simp only [serve, hsame]
    simp [World.emit]
  have hreq : ∀ (buffer2 : List Nat) (size2 : Nat), 1 ≤ size2 →
      buffer2.getD 0 0 = IC_GET_DEVICE_ID → ∀ (l : List ReadOutcome) (ws : World),
      serve handle0 handle1 (ReadOutcome.ok buffer2 size2 :: l) ws =
        serve handle0 handle1 l
          { ws with trace := ws.trace ++ [Call.ReadFile ws.pipe_handle,
              Call.WriteFile ws.pipe_handle
                (ws.req_device_id.take (strlen ws.req_device_id))] } := by
    intro buffer2 size2 h1 h2 l ws
    have h0 : ¬ size2 ≤ 0 := by omega
    simp only [serve, process_message, h0, h2, if_true, if_false]
    simp [World.emit]
  refine ⟨?_, hsync rest w, hover rest w, ?_, ?_, ?_, ?_⟩
  · intro b hb ws
    rw [process_message_closed_form, if_pos (Or.inr (Or.inl ⟨hb, by decide⟩))]
  · simp only [serve, hsame]
    simp [World.emit]
  · rw [hsync]; rfl
  · rw [hover]; rfl
  · intro buffer2 size2 h1 h2
    constructor
    · rw [hsync, hreq buffer2 size2 h1 h2]
      simp
    · rw [hover, hreq buffer2 size2 h1 h2]
      simp

/-- Witness for C3: the one-byte print-message frame `[1]`, followed by a
request-device-id frame, on a session serving the device id `USB`. -/
theorem serve_continues_after_failed_dispatch_witness :
    serve (Handle.live 2) (Handle.live 3) [ReadOutcome.ok [1] 1, ReadOutcome.ok [0] 1]
        ⟨Handle.live 1, [85, 83, 66, 0], []⟩ =
      (none, ⟨Handle.live 1, [85, 83, 66, 0],
        [Call.ReadFile (Handle.live 1), Call.ReadFile (Handle.live 1),
         Call.WriteFile (Handle.live 1) [85, 83, 66]]⟩) :=
  ((serve_continues_after_failed_dispatch (Handle.live 2) (Handle.live 3)
      ⟨Handle.live 1, [85, 83, 66, 0], []⟩ [1] 1 []
      (by decide)).2.2.2.2.2.2
    [0] 1 (by decide) (by decide)).1

/-! ## Start-up and termination of `run_installer` -/

/-- C4: when `CreateNamedPipe` yields the invalid handle, `run_installer`
returns -1 and the only call it adds to the trace is `CreateNamedPipe` itself:
no `ShellExecuteEx` is attempted and no `ReadFile` is issued. -/
theorem run_installer_pipe_failure (env : InstallerEnv) (w : World) (path : String)
    (device_id : List Nat) (hpipe : env.createNamedPipe = none) :
    (run_installer env w path device_id).1 = some (-1) ∧
    (run_installer env w path device_id).2.trace = w.trace ++ [Call.CreateNamedPipe] ∧
    (∀ c ∈ (run_installer env w path device_id).2.trace,
      c ∈ w.trace ∨ c = Call.CreateNamedPipe) := by
  have ht : (run_installer env w path device_id).2.trace =
      w.trace ++ [Call.CreateNamedPipe] := by
    simp [run_installer, hpipe, run_installer_out, safe_closehandle, World.emit]
  refine ⟨?_, ht, ?_⟩
  · simp [run_installer, hpipe, run_installer_out]
  · intro c hc
    rw [ht] at hc
    simpa using hc

/-- Witness for C4: a run in which `CreateNamedPipe` fails. -/
theorem run_installer_pipe_failure_witness :
    (run_installer env_no_pipe ⟨Handle.INVALID_HANDLE_VALUE, [], []⟩ "C:\\pkg" [85, 0]).1
      = some (-1) :=
  (run_installer_pipe_failure env_no_pipe ⟨Handle.INVALID_HANDLE_VALUE, [], []⟩
    "C:\\pkg" [85, 0] rfl).1

/-- Counterexample for C5: with the channel, the event and the process handle
all acquired and the channel ended at the first read, `run_installer` returns
0 and closes the event first, then the process handle, then the channel; the
reverse of the order of acquisition would close the process handle first. -/
theorem run_installer_release_order_counterexample :
    (run_installer env_all_acquired ⟨Handle.INVALID_HANDLE_VALUE, [], []⟩ "C:\\pkg"
        [85, 0]).1 = some 0 ∧
    acquired env_all_acquired = [Handle.live 1, Handle.live 2, Handle.live 3] ∧
    closes (run_installer env_all_acquired ⟨Handle.INVALID_HANDLE_VALUE, [], []⟩ "C:\\pkg"
        [85, 0]).2.trace = [Handle.live 2, Handle.live 3, Handle.live 1] ∧
    closes (run_installer env_all_acquired ⟨Handle.INVALID_HANDLE_VALUE, [], []⟩ "C:\\pkg"
        [85, 0]).2.trace ≠ (acquired env_all_acquired).reverse := by
  decide

/-- C5, amended: whenever `run_installer` returns, the handles it closed are
exactly the handles it acquired, each closed once and no other handle closed,
in this order: the event and the process handle (in the order of their
acquisition) first, the channel endpoint, acquired first, last. -/
theorem run_installer_releases_acquired (env : InstallerEnv) (w : World) (path : String)
    (device_id : List Nat) (r : Int) (w' : World)
    (hret : run_installer env w path device_id = (some r, w')) :
    closes w'.trace = closes w.trace ++ ((acquired env).tail ++ (acquired env).take 1) ∧
    List.Perm (closes w'.trace) (closes w.trace ++ acquired env) := by
  have key : closes w'.trace =
      closes w.trace ++ ((acquired env).tail ++ (acquired env).take 1) := by
    unfold run_installer at hret
    unfold acquired
    cases hp : env.createNamedPipe with
    | none =>
      simp [hp, run_installer_out, safe_closehandle, World.emit] at hret
      rw [← hret.2]
      simp [closes_append, closes]
    | some p =>
      cases he : env.createEvent with
      | none =>
        simp [hp, he, run_installer_out, safe_closehandle, World.emit] at hret
        rw [← hret.2]
        simp [closes_append, closes]
      | some e =>
        cases hq : env.hProcess with
        | none =>
          simp [hp, he, hq, run_installer_out, safe_closehandle, World.emit] at hret
          rw [← hret.2]
          simp [closes_append, closes]
        | some q =>
          simp only [hp, he, hq, reduceCtorEq, if_false] at hret
          generalize hw3 : World.emit _ (Call.ShellExecuteEx _ _ _) = w3 at hret
          have hpipe3 : w3.pipe_handle = Handle.live p := by
            rw [← hw3]; rfl
          have hcl3 : closes w3.trace = closes w.trace := by
            rw [← hw3]
            simp [World.emit, closes_append, closes]
          obtain ⟨f1, _, f3⟩ := serve_fields (Handle.live e) (Handle.live q) env.reads w3
          rcases hserve : serve (Handle.live e) (Handle.live q) env.reads w3 with ⟨_ | r4, w4⟩
          · rw [hserve] at hret
            simp at hret
          · rw [hserve] at hret f1 f3
            simp only [] at f1 f3
            simp only [run_installer_out, safe_closehandle, f1, hpipe3, World.emit,
              Prod.mk.injEq, Option.some.injEq] at hret
            rw [← hret.2]
            simp [closes_append, closes, f3, hcl3]
  refine ⟨key, ?_⟩
  rw [key]
  refine List.Perm.append_left _ ?_
  have hsplit : List.take 1 (acquired env) ++ (acquired env).tail = acquired env := by
    cases acquired env <;> rfl
  exact List.perm_append_comm.trans (by rw [hsplit])

/-- Witness for C5, amended: the run of the counterexample closes the event,
the process handle and the channel, in this order. -/
theorem run_installer_releases_acquired_witness :
    closes (run_installer env_all_acquired ⟨Handle.INVALID_HANDLE_VALUE, [], []⟩ "C:\\pkg"
        [85, 0]).2.trace = [Handle.live 2, Handle.live 3, Handle.live 1] :=
  (run_installer_releases_acquired env_all_acquired ⟨Handle.INVALID_HANDLE_VALUE, [], []⟩
    "C:\\pkg" [85, 0] 0 _ (by decide)).1
/-! ## The scanner -/

/-- C7, the code at the failing input: three driverless devices are
enumerated and `CM_Get_Device_IDA` fails for the second.  `list_driverless`
returns three records, not two: the record of the second device was linked
into the list before the lookup and stays there with no device id.  This is so
whatever the sizes of the arrays of the record. -/
theorem list_driverless_keeps_unresolved_device :
    list_driverless spec_sizes (some [driverless_device (some "USB\\VID_1&PID_2\\a"),
        driverless_device none, driverless_device (some "USB\\VID_3&PID_4\\b")]) =
      [{ device_id := some "USB\\VID_1&PID_2\\a", desc := some "Gadget",
         vid := "VID_1", pid := "PID_2", mi := "" },
       { device_id := none, desc := none, vid := "", pid := "", mi := "" },
       { device_id := some "USB\\VID_3&PID_4\\b", desc := some "Gadget",
         vid := "VID_3", pid := "PID_4", mi := "" }] ∧
    (∀ sz : FieldSizes,
      (list_driverless sz (some [driverless_device (some "USB\\VID_1&PID_2\\a"),
        driverless_device none, driverless_device (some "USB\\VID_3&PID_4\\b")])).map
          (fun r => r.device_id) =
        [some "USB\\VID_1&PID_2\\a", none, some "USB\\VID_3&PID_4\\b"]) := by
  refine ⟨by decide, ?_⟩
  intro sz
  simp [list_driverless, list_driverless_loop, driverless_device, driver_info.calloc,
    (scan_tokens_fields sz _ _).2.2.2.1]

/-! ## The package builder -/

/-- C8, the code at the failing input: a `NULL` directory or a `NULL` record
is turned down with -1 before any side effect, but the range test of line 279
is false for every type; with the driver type 2, above `USE_LIBUSB`,
`create_inf` does not return -1 but goes on, creates the directory, extracts
the resource, opens the descriptor, reads `inf[2]` and returns 0. -/
theorem create_inf_accepts_type_out_of_range :
    (∀ (b : Bundle) (fs : FsEnv) (d : Option driver_info) (type : Int),
      create_inf b fs d none type = (-1, [])) ∧
    (∀ (b : Bundle) (fs : FsEnv) (path : Option String) (type : Int),
      create_inf b fs none path type = (-1, [])) ∧
    (∀ type : Int, ¬ (type < USE_WINUSB ∧ type > USE_LIBUSB)) ∧
    create_inf sample_bundle { fs_all_ok with access := fun _ => false }
        (some sample_record) (some "C:\\pkg") 2 =
      (0, [FsCall.CreateDirectory "C:\\pkg",
           FsCall.CreateDirectory "C:\\pkg\\x86",
           FsCall.fopen "C:\\pkg\\x86\\helper.dll" "wb",
           FsCall.fwrite "C:\\pkg\\x86\\helper.dll" "MZ",
           FsCall.fclose "C:\\pkg\\x86\\helper.dll",
           FsCall.fopen "C:\\pkg\\libusb-device.inf" "w",
           FsCall.fprintf "C:\\pkg\\libusb-device.inf" "; libusb_device.inf\n",
           FsCall.fprintf "C:\\pkg\\libusb-device.inf"
             "; Copyright (c) 2010 libusb (GNU LGPL)\n",
           FsCall.fprintf "C:\\pkg\\libusb-device.inf" "[Strings]\n",
           FsCall.fprintf "C:\\pkg\\libusb-device.inf" "DeviceName = \"Gadget\"\n",
           FsCall.fprintf "C:\\pkg\\libusb-device.inf" "DeviceID = \"VID_1234&PID_5678",
           FsCall.fprintf "C:\\pkg\\libusb-device.inf" "\"\n",
           FsCall.CoCreateGuid,
           FsCall.fprintf "C:\\pkg\\libusb-device.inf"
             "DeviceGUID = \"\x7b00000001-0002-0003-0405-060708090A0B\x7d\"\n",
           FsCall.inf_index 2,
           FsCall.fwrite "C:\\pkg\\libusb-device.inf" "[Version]\n",
           FsCall.fclose "C:\\pkg\\libusb-device.inf"]) := by
  refine ⟨?_, ?_, ?_, by decide⟩
  · intro b fs d type
    cases d <;> rfl
  · intro b fs path type
    cases path <;> rfl
  · intro type h
    have h1 : type < 0 := h.1
    have h2 : type > 1 := h.2
    omega

/-- C9, the code at the failing input: the subdirectory of the one bundled
resource can be neither reached nor created, so `extract_binaries` returns -1;
`create_inf` drops that result, writes the descriptor and returns 0. -/
theorem create_inf_ignores_extract_failure :
    (extract_binaries sample_bundle fs_no_subdir "C:\\pkg"
        [FsCall.CreateDirectory "C:\\pkg"]).1 = -1 ∧
    (create_inf sample_bundle fs_no_subdir (some sample_record) (some "C:\\pkg")
        USE_WINUSB).1 = 0 ∧
    FsCall.fwrite "C:\\pkg\\x86\\helper.dll" "MZ" ∉
      (create_inf sample_bundle fs_no_subdir (some sample_record) (some "C:\\pkg")
        USE_WINUSB).2 := by
  decide

/-- C10: whenever `create_inf` returns 0, the fifth and sixth text it printed
to the descriptor, read together, are the `DeviceID` line of the spec:
`DeviceID = "<vid>&<pid>"` when `mi` is empty and
`DeviceID = "<vid>&<pid>&<mi>"` otherwise; the whole printed header is the
three fixed lines, the `DeviceName` line, that `DeviceID` line and the
`DeviceGUID` line; and any other successful build from the same record, with
whatever tables, file system, directory, driver type and generated GUID,
prints the same `DeviceID` line. -/
theorem create_inf_device_id_line (b : Bundle) (fs : FsEnv) (d : driver_info)
    (path : String) (type : Int) (t : List FsCall)
    (hret : create_inf b fs (some d) (some path) type = (0, t)) :
    join_texts (((fprintfs t).drop 4).take 2) = device_id_line d ∧
    join_texts (fprintfs t) =
      "; libusb_device.inf\n" ++ ("; Copyright (c) 2010 libusb (GNU LGPL)\n" ++
        ("[Strings]\n" ++ (("DeviceName = \"" ++ d.desc.getD "(null)" ++ "\"\n") ++
          (device_id_line d ++ ("DeviceGUID = \"" ++ guid_to_string fs.guid ++ "\"\n"))))) ∧
    (∀ (b2 : Bundle) (fs2 : FsEnv) (path2 : String) (type2 : Int) (t2 : List FsCall),
      create_inf b2 fs2 (some d) (some path2) type2 = (0, t2) →
      join_texts (((fprintfs t2).drop 4).take 2) =
        join_texts (((fprintfs t).drop 4).take 2)) := by
  have hline : ∀ (b1 : Bundle) (fs1 : FsEnv) (path1 : String) (type1 : Int)
      (t1 : List FsCall), create_inf b1 fs1 (some d) (some path1) type1 = (0, t1) →
      join_texts (((fprintfs t1).drop 4).take 2) = device_id_line d := by
    intro b1 fs1 path1 type1 t1 h1
    rw [create_inf_fprintfs b1 fs1 d path1 type1 t1 h1]
    unfold device_id_line
    by_cases hm : d.mi = ""
    · simp [join_texts, hm, String.append_assoc]
    · simp [join_texts, hm, String.append_assoc]
  refine ⟨hline b fs path type t hret, ?_, ?_⟩
  · rw [create_inf_fprintfs b fs d path type t hret]
    unfold device_id_line
    by_cases hm : d.mi = ""
    · simp [join_texts, hm, String.append_assoc]
    · simp [join_texts, hm, String.append_assoc]
  · intro b2 fs2 path2 type2 t2 h2
    rw [hline b2 fs2 path2 type2 t2 h2, hline b fs path type t hret]

/-- Witness for C10: the sample record, which has no interface index, built
into `C:\pkg`. -/
theorem create_inf_device_id_line_witness :
    join_texts (((fprintfs (create_inf sample_bundle fs_all_ok (some sample_record)
        (some "C:\\pkg") USE_WINUSB).2).drop 4).take 2) =
      "DeviceID = \"VID_1234&PID_5678\"\n" :=
  (create_inf_device_id_line sample_bundle fs_all_ok sample_record "C:\\pkg" USE_WINUSB
    _ rfl).1.trans (by decide)

end Libwdi
